import Mathlib

/-!
Shallow embedding of the core of `src/win/iocp.c` (the IOCP engine of the
`iocp` Tcl extension): the one-time-initialization gate, the sliding-window
data buffer, the reference-counted channel, the per-thread dispatch structure
(TSD), process-level initialization, and the package entry point.

Machine integers from the C source are modelled as `Int` (the source never
relies on wrap-around in the functions embedded here).  Stateful C functions
become pure functions from the relevant state to an explicit result record.
External facilities (allocation, Win32 calls) are modelled by explicit
success/failure parameters.
-/

/-- Tcl's standard success code (`TCL_OK` = 0). -/
def TCL_OK : Int := 0

/-- Tcl's standard failure code (`TCL_ERROR` = 1). -/
def TCL_ERROR : Int := 1

/-! ## One-time-initialization gate (`Iocp_DoOnce`, iocp.c lines 242-296) -/

/-- The four states of the `Iocp_DoOnceState` cell (the anonymous `enum`
inside `Iocp_DoOnce`). -/
inductive Iocp_DoOnceState where
  | IOCP_INITSTATE_INIT
  | IOCP_INITSTATE_IN_PROGRESS
  | IOCP_INITSTATE_DONE
  | IOCP_INITSTATE_ERROR
deriving DecidableEq, Repr

open Iocp_DoOnceState

/-- `InterlockedCompareExchange(stateP, newVal, comparand)` on the gate cell:
returns the pair (new cell contents, previous cell contents). -/
def InterlockedCompareExchange (current newVal comparand : Iocp_DoOnceState) :
    Iocp_DoOnceState × Iocp_DoOnceState :=
  if current = comparand then (newVal, current) else (current, current)

/-- Result of one `Iocp_DoOnce` call: final cell state, returned code,
how many times `once_fn` was invoked during the call, the client data
threaded through `once_fn`, and the cell state right after the entry
compare-exchange. -/
structure DoOnceOutcome (σ : Type) where
  state : Iocp_DoOnceState
  result : Int
  invoked : Nat
  clientState : σ
  mid : Iocp_DoOnceState
deriving Repr

/-- `Iocp_DoOnce(stateP, once_fn, clientdata)` (iocp.c lines 242-296).
`once_fn` both transforms the client data and yields a code, mirroring the C
callback acting on `clientdata`.  The `IOCP_INITSTATE_IN_PROGRESS` entry case
spin-waits for another thread; sequentially we model the first
non-in-progress value that the spin loop's compare-exchange eventually reads
as the oracle parameter `eventual` (that branch is outside the claims about
single-caller behaviour). -/
def Iocp_DoOnce {σ : Type} (state0 : Iocp_DoOnceState) (once_fn : σ → σ × Int)
    (clientdata : σ) (eventual : Iocp_DoOnceState) : DoOnceOutcome σ :=
  let entry := InterlockedCompareExchange state0 IOCP_INITSTATE_IN_PROGRESS IOCP_INITSTATE_INIT
  match entry.2 with
  | IOCP_INITSTATE_DONE =>
      { state := entry.1, result := TCL_OK, invoked := 0,
        clientState := clientdata, mid := entry.1 }
  | IOCP_INITSTATE_IN_PROGRESS =>
      if eventual = IOCP_INITSTATE_DONE then
        { state := eventual, result := TCL_OK, invoked := 0,
          clientState := clientdata, mid := entry.1 }
      else
        { state := eventual, result := TCL_ERROR, invoked := 0,
          clientState := clientdata, mid := entry.1 }
  | IOCP_INITSTATE_INIT =>
      let r := once_fn clientdata
      if r.2 = TCL_OK then
        { state := IOCP_INITSTATE_DONE, result := TCL_OK, invoked := 1,
          clientState := r.1, mid := entry.1 }
      else
        { state := IOCP_INITSTATE_ERROR, result := TCL_ERROR, invoked := 1,
          clientState := r.1, mid := entry.1 }
  | IOCP_INITSTATE_ERROR =>
      { state := entry.1, result := TCL_ERROR, invoked := 0,
        clientState := clientdata, mid := entry.1 }

/-! ## Data buffer (`IocpDataBuffer`, iocp.c lines 32-76) -/

/-- `IocpDataBuffer`: capacity, current window start, window length, and the
owned storage (`dataPtr`), modelled as a byte list when present. -/
structure IocpDataBuffer where
  capacity : Int
  dbegin : Int
  len : Int
  dataPtr : Option (List Int)
deriving DecidableEq, Repr

/-- `IocpDataBufferInit(dataBuf, capacity)` (iocp.c lines 32-44).
`allocOk` models whether `attemptckalloc(capacity)` succeeds; fresh storage
is `capacity` uninitialized bytes (modelled as zeros). -/
def IocpDataBufferInit (capacity : Int) (allocOk : Bool) : IocpDataBuffer :=
  if capacity ≠ 0 then
    if allocOk then
      { capacity := capacity, dbegin := 0, len := 0,
        dataPtr := some (List.replicate capacity.toNat 0) }
    else
      { capacity := 0, dbegin := 0, len := 0, dataPtr := none }
  else
    { capacity := capacity, dbegin := 0, len := 0, dataPtr := none }

/-- Result of `IocpDataBufferMove`: the updated buffer, the bytes written to
`outPtr` by the `memcpy`, and the returned count. -/
structure MoveResult where
  buf : IocpDataBuffer
  copied : List Int
  numCopied : Int
deriving DecidableEq, Repr

/-- `IocpDataBufferMove(dataBuf, outPtr, len)` (iocp.c lines 68-76):
`numCopied = dataBuf->len > len ? len : dataBuf->len`; the `memcpy` from
`dataBuf->begin + dataBuf->dataPtr` runs only when `dataPtr` is non-null;
`begin` advances and `len` shrinks by `numCopied`. -/
def IocpDataBufferMove (dataBuf : IocpDataBuffer) (len : Int) : MoveResult :=
  let numCopied := if dataBuf.len > len then len else dataBuf.len
  let copied :=
    match dataBuf.dataPtr with
    | some s => List.take numCopied.toNat (List.drop dataBuf.dbegin.toNat s)
    | none => []
  { buf := { dataBuf with dbegin := dataBuf.dbegin + numCopied,
                          len := dataBuf.len - numCopied },
    copied := copied,
    numCopied := numCopied }

/-- Well-formedness of a data buffer: non-negative window, window inside
capacity, zero capacity means absent storage, and present storage has
exactly `capacity` bytes. -/
def IocpDataBuffer.WF (b : IocpDataBuffer) : Prop :=
  0 ≤ b.dbegin ∧ 0 ≤ b.len ∧ b.dbegin + b.len ≤ b.capacity ∧
  (b.capacity = 0 → b.dataPtr = none) ∧
  ((b.dataPtr.map fun s => (s.length : Int)).getD b.capacity = b.capacity)

instance (b : IocpDataBuffer) : Decidable b.WF :=
  inferInstanceAs (Decidable
    (0 ≤ b.dbegin ∧ 0 ≤ b.len ∧ b.dbegin + b.len ≤ b.capacity ∧
     (b.capacity = 0 → b.dataPtr = none) ∧
     ((b.dataPtr.map fun s => (s.length : Int)).getD b.capacity = b.capacity)))

/-- The storage-length clause of `IocpDataBuffer.WF`, in pointwise form. -/
theorem IocpDataBuffer.WF.storage_length {b : IocpDataBuffer} (h : b.WF)
    {s : List Int} (hs : b.dataPtr = some s) : (s.length : Int) = b.capacity := by
  have h5 := h.2.2.2.2
  rw [hs] at h5
  simpa using h5

/-- Apply a sequence of `IocpDataBufferMove` requests, returning the final
buffer. -/
def IocpDataBufferMoves (b : IocpDataBuffer) : List Int → IocpDataBuffer
  | [] => b
  | r :: rs => IocpDataBufferMoves (IocpDataBufferMove b r).buf rs

/-- Sum of the byte counts returned by a sequence of `IocpDataBufferMove`
requests. -/
def IocpDataBufferMovesSum (b : IocpDataBuffer) : List Int → Int
  | [] => 0
  | r :: rs =>
      (IocpDataBufferMove b r).numCopied +
        IocpDataBufferMovesSum (IocpDataBufferMove b r).buf rs

/-! ## Channel (`IocpChannel`, iocp.c lines 119-218) -/

/-- The flag bit `IOCP_CHAN_F_BLOCKED_FOR_IO`.  The flag constants live in
the header `tclWinIocp.h`, which is not part of the two source files; its
exact numeric value is immaterial, we fix the single bit used by the code
at bit 0. -/
def IOCP_CHAN_F_BLOCKED : Nat := 1

/-- The state of an `IocpChannel` relevant to the embedded functions:
reference count, flag word, owning-TSD link (`tsdPtr`), intrusive
ready-list link pointers (`readyLink.next` / `readyLink.prev`), pending
input-buffer list, whether the lock is currently held, and the two vtable
hooks of interest (whether `vtblPtr->initialize` / `vtblPtr->finalize` are
non-null). -/
structure IocpChannel where
  numRefs : Int
  flags : Nat
  tsdPtr : Option Nat
  readyLinkNext : Option Nat
  readyLinkPrev : Option Nat
  inputBuffers : List Nat
  locked : Bool
  hasInitialize : Bool
  hasFinalize : Bool
deriving DecidableEq, Repr

/-- `IocpChannelUnlock` (header macro): releases the channel's lock. -/
def IocpChannelUnlock (c : IocpChannel) : IocpChannel :=
  { c with locked := false }

/-- `IocpChannelNew(interp, vtblPtr)` (iocp.c lines 119-137): fresh channel
with empty buffer list, null ready links, null `tsdPtr`, initialized (free)
lock, `numRefs = 1`, and the vtable's `initialize` hook run when present.
`initializeRan` in the result records whether the hook ran. -/
structure ChannelNewResult where
  chan : IocpChannel
  initializeRan : Bool
deriving DecidableEq, Repr

/-- See `ChannelNewResult`. -/
def IocpChannelNew (hasInitialize hasFinalize : Bool) : ChannelNewResult :=
  let chanPtr : IocpChannel :=
    { numRefs := 1, flags := 0, tsdPtr := none,
      readyLinkNext := none, readyLinkPrev := none,
      inputBuffers := [], locked := false,
      hasInitialize := hasInitialize, hasFinalize := hasFinalize }
  { chan := chanPtr, initializeRan := hasInitialize }

/-- Outcome of `IocpChannelDrop`.  `panicked` models `Tcl_Panic` (the fatal
invariant-violation path); the source's invariant checks at iocp.c lines
162-163 are commented-out `TBD` placeholders, so the translated function
never produces it.  `freed` records whether the finalize hook ran before the
free; `kept` carries the surviving channel state. -/
inductive ChannelDropResult where
  | panicked
  | freed (finalizeRan : Bool)
  | kept (c : IocpChannel)
deriving DecidableEq, Repr

/-- `IocpChannelDrop(interp, lockedChanPtr)` (iocp.c lines 157-171):
decrement `numRefs`; when it reaches zero or below, run the finalize hook if
present, unlock, destroy the lock and free; otherwise return (the source has
no `else` branch, so the channel stays locked). -/
def IocpChannelDrop (lockedChanPtr : IocpChannel) : ChannelDropResult :=
  let c := { lockedChanPtr with numRefs := lockedChanPtr.numRefs - 1 }
  if c.numRefs ≤ 0 then
    ChannelDropResult.freed c.hasFinalize
  else
    ChannelDropResult.kept c

/-- Result of `IocpChannelWakeAfterCompletion`: the updated channel and
whether `WakeConditionVariable` was called. -/
structure WakeResult where
  chan : IocpChannel
  signaled : Bool
deriving DecidableEq, Repr

/-- `IocpChannelWakeAfterCompletion(lockedChanPtr)` (iocp.c lines 211-218):
if the blocked-for-I/O flag is set, clear it (`flags &= ~FLAG`, which for the
single-bit mask equals subtracting `flags &&& FLAG`) and signal the condition
variable; otherwise do nothing. -/
def IocpChannelWakeAfterCompletion (lockedChanPtr : IocpChannel) : WakeResult :=
  if lockedChanPtr.flags &&& IOCP_CHAN_F_BLOCKED ≠ 0 then
    { chan := { lockedChanPtr with
        flags := lockedChanPtr.flags - (lockedChanPtr.flags &&& IOCP_CHAN_F_BLOCKED) },
      signaled := true }
  else
    { chan := lockedChanPtr, signaled := false }

/-! ## Thread dispatch structure (`IocpTsd`, iocp.c lines 400-523) -/

/-- The state of an `IocpTsd`: reference count, owning thread identity
(0 models a cleared identity), the ready-channel list (`readyChannels`,
whose `headPtr` is null exactly when the list is empty), and the lock. -/
structure IocpTsd where
  numRefs : Int
  threadId : Int
  readyChannels : List Nat
  locked : Bool
deriving DecidableEq, Repr

/-- `IocpTsdNew()` (iocp.c lines 400-409): a fresh, LOCKED TSD with an empty
ready list, the calling thread's identity, and `numRefs = 1`. -/
def IocpTsdNew (currentThread : Int) : IocpTsd :=
  { numRefs := 1, threadId := currentThread, readyChannels := [], locked := true }

/-- Outcome of `IocpTsdDrop`: `panicked` is the `Tcl_Panic` call; `freed`
means the TSD was unlocked and deallocated; `unlocked` carries the surviving
TSD. -/
inductive TsdDropResult where
  | panicked
  | freed
  | unlocked (t : IocpTsd)
deriving DecidableEq, Repr

/-- `IocpTsdDrop(lockedTsdPtr)` (iocp.c lines 428-449): decrement `numRefs`;
`do_free` iff it is now ≤ 0; if freeing with a non-empty `readyChannels`
list, `Tcl_Panic`; otherwise unlock and then free iff `do_free`. -/
def IocpTsdDrop (lockedTsdPtr : IocpTsd) : TsdDropResult :=
  let t := { lockedTsdPtr with numRefs := lockedTsdPtr.numRefs - 1 }
  let do_free := t.numRefs ≤ 0
  if do_free ∧ ¬ t.readyChannels.isEmpty then
    TsdDropResult.panicked
  else if do_free then
    TsdDropResult.freed
  else
    TsdDropResult.unlocked { t with locked := false }

/-! ## Thread initialization (`IocpThreadInit`, iocp.c lines 507-516) -/

/-- Per-thread state seen by `IocpThreadInit`: the contents of the
thread-specific slot keyed by `iocpTsdDataKey`, and whether this thread's
event source and exit handler have been registered. -/
structure ThreadState where
  slot : Option IocpTsd
  eventSourceRegistered : Bool
  exitHandlerRegistered : Bool
deriving DecidableEq, Repr

/-- Modelled from the spec: the macro `IOCP_TSD_INIT` (defined in the header
`tclWinIocp.h`, which is not among the source files) wraps Tcl's
`Tcl_GetThreadData`, which allocates the calling thread's slot on first use
and always returns a non-null pointer to it ("lazily creates a TSD on first
call from a given thread" presupposes a usable slot).  Only the pointer's
null-ness matters to `IocpThreadInit`, so that is all we model. -/
def IOCP_TSD_INIT_isNull : Bool := false

/-- `IocpThreadInit(interp)` (iocp.c lines 507-516): the C code tests
`tsdPtrPtr == NULL` — the slot's address, not its contents — and only inside
that branch creates a TSD and registers the event source and the thread exit
handler; it returns `TCL_OK` unconditionally. -/
def IocpThreadInit (currentThread : Int) (ts : ThreadState) : ThreadState × Int :=
  if IOCP_TSD_INIT_isNull then
    ({ slot := some (IocpTsdNew currentThread),
       eventSourceRegistered := true, exitHandlerRegistered := true }, TCL_OK)
  else
    (ts, TCL_OK)

/-! ## Process initialization (`IocpProcessInit`, iocp.c lines 347-382) -/

/-- The interpreter state the embedded functions touch: its result string. -/
structure InterpState where
  result : String
deriving DecidableEq, Repr

/-- `Tcl_SetResult(interp, s, TCL_STATIC)`. -/
def Tcl_SetResult (interp : InterpState) (s : String) : InterpState :=
  { interp with result := s }

/-- The message text used by the system-error reporter.  Modelled from the
spec ("reports the error"): `Iocp_ReportLastError` is declared in the
missing header; it formats `GetLastError()` into a non-empty message. -/
def lastErrorMessage : String := "windows error"

/-- `Iocp_ReportLastError(interp)`: store the formatted OS error message in
the interpreter result. -/
def Iocp_ReportLastError (interp : InterpState) : InterpState :=
  Tcl_SetResult interp lastErrorMessage

/-- The message set by `IocpProcessInit` when Winsock startup fails. -/
def winsockErrorMessage : String := "Could not load winsock."

/-- `iocpModuleState` (iocp.c line 299) plus the process-wide resources that
`IocpProcessInit` acquires: the completion port handle, the completion
thread handle, whether Winsock is currently started (`WSAStartup` not yet
balanced by `WSACleanup`), and whether the process exit handler was
registered. -/
structure IocpSubSystem where
  completion_port : Option Nat
  completion_thread : Option Nat
  wsaStarted : Bool
  exitHandlerRegistered : Bool
deriving DecidableEq, Repr

/-- The zero-initialized global `iocpModuleState` before any call. -/
def iocpModuleState0 : IocpSubSystem :=
  { completion_port := none, completion_thread := none,
    wsaStarted := false, exitHandlerRegistered := false }

/-- Success/failure of the three external acquisition calls made by
`IocpProcessInit`: `CreateIoCompletionPort`, `WSAStartup`, `CreateThread`. -/
structure ProcessInitEnv where
  createPortOk : Bool
  wsaStartupOk : Bool
  createThreadOk : Bool
deriving DecidableEq, Repr

/-- `IocpProcessInit(clientdata)` (iocp.c lines 347-382), sequentially:
store the result of `CreateIoCompletionPort` in `completion_port` (NULL on
failure → report last error, return `TCL_ERROR`); `WSAStartup` (failure →
close and null the port, set the winsock message, return `TCL_ERROR`);
store the result of `CreateThread` in `completion_thread` (NULL on failure →
report last error, close and null the port, `WSACleanup`, return
`TCL_ERROR`); finally register the process exit handler and return
`TCL_OK`. -/
def IocpProcessInit (env : ProcessInitEnv) (st0 : IocpSubSystem)
    (interp : InterpState) : IocpSubSystem × InterpState × Int :=
  let st1 := { st0 with completion_port := if env.createPortOk then some 1 else none }
  if st1.completion_port = none then
    (st1, Iocp_ReportLastError interp, TCL_ERROR)
  else if ¬ env.wsaStartupOk then
    ({ st1 with completion_port := none },
     Tcl_SetResult interp winsockErrorMessage, TCL_ERROR)
  else
    let st2 := { st1 with
                 wsaStarted := true
                 completion_thread := if env.createThreadOk then some 2 else none }
    if st2.completion_thread = none then
      ({ st2 with completion_port := none, wsaStarted := false },
       Iocp_ReportLastError interp, TCL_ERROR)
    else
      ({ st2 with exitHandlerRegistered := true }, interp, TCL_OK)

/-! ## Package entry point (`Iocp_Init`, iocp.c lines 672-698) -/

/-- `Tcl_GetCharLength(Tcl_GetObjResult(interp))` on our interpreter model. -/
def Tcl_GetCharLength (interp : InterpState) : Nat :=
  interp.result.length

/-- The `PACKAGE_NAME` preprocessor constant of this extension's build. -/
def PACKAGE_NAME : String := "iocp"

/-- The message `Iocp_Init` sets when the one-time initialization fails and
left no message. -/
def oneTimeInitErrorMessage : String :=
  "Unable to do one-time initialization for " ++ PACKAGE_NAME ++ "."

/-- The message `Iocp_Init` sets on the thread-initialization failure path
when no message is present. -/
def threadInitErrorMessage : String :=
  "Unable to do thread initialization for " ++ PACKAGE_NAME ++ "."

/-- Result of `Iocp_Init`: interpreter, gate cell, module resources, thread
state, whether `iocp::socket` was registered, whether the package was
provided, and the return code. -/
structure IocpInitResult where
  interp : InterpState
  gate : Iocp_DoOnceState
  resources : IocpSubSystem
  thread : ThreadState
  socketCommandRegistered : Bool
  pkgProvided : Bool
  code : Int
deriving DecidableEq, Repr

/-- `Iocp_Init(interp)` (iocp.c lines 672-698).  `useTclStubs`/`stubsOk`
model the `#ifdef USE_TCL_STUBS` block; `gate` is the current value of
`iocpProcessInitFlag`; `eventual` is the spin-loop oracle of `Iocp_DoOnce`;
`env` drives `IocpProcessInit`. The thread-init test is C's
`if (! IocpThreadInit(interp))`, i.e. the branch is taken exactly when the
returned code is 0. -/
def Iocp_Init (useTclStubs stubsOk : Bool) (gate eventual : Iocp_DoOnceState)
    (env : ProcessInitEnv) (currentThread : Int) (ts : ThreadState)
    (interp : InterpState) : IocpInitResult :=
  if useTclStubs ∧ ¬ stubsOk then
    { interp := interp, gate := gate, resources := iocpModuleState0, thread := ts,
      socketCommandRegistered := false, pkgProvided := false, code := TCL_ERROR }
  else
    let once_fn : IocpSubSystem × InterpState → (IocpSubSystem × InterpState) × Int :=
      fun p =>
        let r := IocpProcessInit env p.1 p.2
        ((r.1, r.2.1), r.2.2)
    let d := Iocp_DoOnce gate once_fn (iocpModuleState0, interp) eventual
    let res := d.clientState.1
    let interp1 := d.clientState.2
    if d.result ≠ TCL_OK then
      let interp2 :=
        if Tcl_GetCharLength interp1 = 0 then
          Tcl_SetResult interp1 oneTimeInitErrorMessage
        else interp1
      { interp := interp2, gate := d.state, resources := res, thread := ts,
        socketCommandRegistered := false, pkgProvided := false, code := TCL_ERROR }
    else
      let t := IocpThreadInit currentThread ts
      if t.2 = 0 then
        let interp2 :=
          if Tcl_GetCharLength interp1 = 0 then
            Tcl_SetResult interp1 threadInitErrorMessage
          else interp1
        { interp := interp2, gate := d.state, resources := res, thread := t.1,
          socketCommandRegistered := false, pkgProvided := false, code := TCL_ERROR }
      else
        { interp := interp1, gate := d.state, resources := res, thread := t.1,
          socketCommandRegistered := true, pkgProvided := true, code := TCL_OK }

/-! ## Helper lemmas -/

/-- `IocpThreadInit` never takes its creation branch (the slot pointer from
`Tcl_GetThreadData` is never null), so it returns its input unchanged with
`TCL_OK`. -/
theorem IocpThreadInit_eq (currentThread : Int) (ts : ThreadState) :
    IocpThreadInit currentThread ts = (ts, TCL_OK) := by
  simp [IocpThreadInit, IOCP_TSD_INIT_isNull]

/-- One `IocpDataBufferMove` on a well-formed buffer with a non-negative
request: well-formedness is preserved, the count is non-negative, and the
count plus the new length equals the old length. -/
theorem IocpDataBufferMove_step (b : IocpDataBuffer) (r : Int)
    (hwf : b.WF) (hr : 0 ≤ r) :
    (IocpDataBufferMove b r).buf.WF ∧
    0 ≤ (IocpDataBufferMove b r).numCopied ∧
    (IocpDataBufferMove b r).numCopied + (IocpDataBufferMove b r).buf.len = b.len := by
  obtain ⟨h0, h1, h2, h3, h4⟩ := hwf
  unfold IocpDataBufferMove
  refine ⟨⟨?_, ?_, ?_, ?_, ?_⟩, ?_, ?_⟩ <;> simp_all
  all_goals split_ifs <;> omega

/-- A sequence of non-negative `IocpDataBufferMove` requests on a
well-formed buffer: well-formedness is preserved, the length never goes
negative, and the returned counts sum to exactly the drop in length. -/
theorem IocpDataBufferMoves_props (reqs : List Int) (b : IocpDataBuffer)
    (hwf : b.WF) (hreqs : ∀ r ∈ reqs, 0 ≤ r) :
    (IocpDataBufferMoves b reqs).WF ∧
    (IocpDataBufferMoves b reqs).len ≤ b.len ∧
    IocpDataBufferMovesSum b reqs = b.len - (IocpDataBufferMoves b reqs).len := by
  induction reqs generalizing b with
  | nil => exact ⟨hwf, le_refl _, by simp [IocpDataBufferMoves, IocpDataBufferMovesSum]⟩
  | cons r rs ih =>
      have hr : 0 ≤ r := hreqs r (List.mem_cons_self r rs)
      have hstep := IocpDataBufferMove_step b r hwf hr
      have hrest := ih (IocpDataBufferMove b r).buf hstep.1
        (fun x hx => hreqs x (List.mem_cons_of_mem r hx))
      refine ⟨hrest.1, ?_, ?_⟩
      · calc (IocpDataBufferMoves b (r :: rs)).len
            = (IocpDataBufferMoves (IocpDataBufferMove b r).buf rs).len := rfl
          _ ≤ (IocpDataBufferMove b r).buf.len := hrest.2.1
          _ ≤ b.len := by omega
      · show (IocpDataBufferMove b r).numCopied +
            IocpDataBufferMovesSum (IocpDataBufferMove b r).buf rs =
            b.len - (IocpDataBufferMoves (IocpDataBufferMove b r).buf rs).len
        omega

/-- `IocpDataBufferInit` with a non-negative capacity yields a well-formed
buffer, whichever way the allocation goes. -/
theorem IocpDataBufferInit_wf (capacity : Int) (allocOk : Bool)
    (hcap : 0 ≤ capacity) : (IocpDataBufferInit capacity allocOk).WF := by
  unfold IocpDataBufferInit IocpDataBuffer.WF
  split_ifs <;> simp_all

/-! ## Claim theorems -/

/-- C1: `Iocp_DoOnce` meets the one-time-init contract for every initial
gate state: on "done" it returns `TCL_OK` without invoking `once_fn`; on
"error" it returns `TCL_ERROR` without invoking `once_fn`; on "not-started"
it first moves the gate to "in-progress", invokes `once_fn` exactly once,
then sets the final state to "done" with result `TCL_OK` when `once_fn`
returns `TCL_OK`, and to "error" with result `TCL_ERROR` otherwise. -/
theorem c1_do_once_contract (σ : Type) (once_fn : σ → σ × Int) (cd : σ)
    (eventual : Iocp_DoOnceState) :
    (Iocp_DoOnce IOCP_INITSTATE_DONE once_fn cd eventual).result = TCL_OK ∧
    (Iocp_DoOnce IOCP_INITSTATE_DONE once_fn cd eventual).invoked = 0 ∧
    (Iocp_DoOnce IOCP_INITSTATE_DONE once_fn cd eventual).state = IOCP_INITSTATE_DONE ∧
    (Iocp_DoOnce IOCP_INITSTATE_ERROR once_fn cd eventual).result = TCL_ERROR ∧
    (Iocp_DoOnce IOCP_INITSTATE_ERROR once_fn cd eventual).invoked = 0 ∧
    (Iocp_DoOnce IOCP_INITSTATE_INIT once_fn cd eventual).mid =
      IOCP_INITSTATE_IN_PROGRESS ∧
    (Iocp_DoOnce IOCP_INITSTATE_INIT once_fn cd eventual).invoked = 1 ∧
    (Iocp_DoOnce IOCP_INITSTATE_INIT once_fn cd eventual).state =
      (if (once_fn cd).2 = TCL_OK then IOCP_INITSTATE_DONE else IOCP_INITSTATE_ERROR) ∧
    (Iocp_DoOnce IOCP_INITSTATE_INIT once_fn cd eventual).result =
      (if (once_fn cd).2 = TCL_OK then TCL_OK else TCL_ERROR) := by
  unfold Iocp_DoOnce InterlockedCompareExchange
  split_ifs <;> simp_all

/-- C2: the claim says every non-final `IocpChannelDrop` unlocks the
channel.  The code has no `else` branch: a channel created by
`IocpChannelNew` (refcount 1), acquired once more (refcount 2) and locked,
survives its first drop with refcount 1 but is still LOCKED on return —
contradicting the claim and the function's own doc comment ("Unlocked and
potentially freed on return").  The final drop does run the finalize hook
and free. -/
theorem c2_drop_keeps_lock :
    IocpChannelDrop
        { (IocpChannelNew false true).chan with numRefs := 2, locked := true } =
      ChannelDropResult.kept
        { (IocpChannelNew false true).chan with numRefs := 1, locked := true } ∧
    ({ (IocpChannelNew false true).chan with numRefs := 1, locked := true } :
        IocpChannel).locked = true ∧
    IocpChannelDrop
        { (IocpChannelNew false true).chan with numRefs := 1, locked := true } =
      ChannelDropResult.freed true := by
  refine ⟨?_, ?_, ?_⟩ <;> decide

/-- C3: the claim says dropping the last reference of a channel still linked
into a TSD (non-null `tsdPtr`, or non-null ready-link pointers) triggers the
fatal invariant-violation path.  The invariant checks are commented-out
`TBD` placeholders (iocp.c lines 162-163): the code frees the still-linked
channel instead of panicking, both for a non-null `tsdPtr` and for non-null
ready-link pointers. -/
theorem c3_drop_frees_linked_channel :
    IocpChannelDrop
        { (IocpChannelNew false true).chan with tsdPtr := some 7, locked := true } =
      ChannelDropResult.freed true ∧
    IocpChannelDrop
        { (IocpChannelNew false true).chan with
          readyLinkNext := some 3
          readyLinkPrev := some 4
          locked := true } =
      ChannelDropResult.freed true ∧
    IocpChannelDrop
        { (IocpChannelNew false true).chan with tsdPtr := some 7, locked := true } ≠
      ChannelDropResult.panicked := by
  refine ⟨?_, ?_, ?_⟩ <;> decide

/-- Auxiliary: running a sequence of moves over an append splits. -/
theorem IocpDataBufferMoves_append (p s : List Int) (b : IocpDataBuffer) :
    IocpDataBufferMoves b (p ++ s) =
      IocpDataBufferMoves (IocpDataBufferMoves b p) s := by
  induction p generalizing b with
  | nil => rfl
  | cons r rs ih => simpa [IocpDataBufferMoves] using ih (IocpDataBufferMove b r).buf

/-- C4: `IocpDataBufferMove` on a well-formed buffer with a non-negative
requested length returns `min(length, max_len)`, copies exactly that many
bytes starting at offset `begin` of the storage when storage is present,
copies nothing when storage is absent, advances `begin` by the returned
count and decreases `length` by the returned count. -/
theorem c4_data_buffer_move (b : IocpDataBuffer) (max_len : Int)
    (hwf : b.WF) (hnonneg : 0 ≤ max_len) :
    (IocpDataBufferMove b max_len).numCopied = min b.len max_len ∧
    (∀ s, b.dataPtr = some s →
      (IocpDataBufferMove b max_len).copied =
        List.take (IocpDataBufferMove b max_len).numCopied.toNat
          (List.drop b.dbegin.toNat s) ∧
      ((IocpDataBufferMove b max_len).copied.length : Int) =
        (IocpDataBufferMove b max_len).numCopied) ∧
    (b.dataPtr = none → (IocpDataBufferMove b max_len).copied = []) ∧
    (IocpDataBufferMove b max_len).buf.dbegin =
      b.dbegin + (IocpDataBufferMove b max_len).numCopied ∧
    (IocpDataBufferMove b max_len).buf.len =
      b.len - (IocpDataBufferMove b max_len).numCopied := by
  obtain ⟨h0, h1, h2, h3, h4⟩ := hwf
  unfold IocpDataBufferMove
  refine ⟨?_, ?_, ?_, rfl, rfl⟩
  · simp only [Int.min_def]
    split_ifs <;> omega
  · intro s hs
    have hlen : (s.length : Int) = b.capacity :=
      IocpDataBuffer.WF.storage_length ⟨h0, h1, h2, h3, h4⟩ hs
    refine ⟨by simp [hs], ?_⟩
    simp only [hs, List.length_take, List.length_drop]
    split_ifs with hgt <;> push_cast <;> omega
  · intro hnone
    simp [hnone]

/-- Witness for C4 at the concrete buffer
`{capacity 5, begin 1, length 3, storage [10,11,12,13,14]}` and request 2. -/
theorem c4_data_buffer_move_witness :
    ({ capacity := 5, dbegin := 1, len := 3,
       dataPtr := some [10, 11, 12, 13, 14] } : IocpDataBuffer).WF ∧
    (0 : Int) ≤ 2 ∧
    (IocpDataBufferMove
      { capacity := 5, dbegin := 1, len := 3,
        dataPtr := some [10, 11, 12, 13, 14] } 2).numCopied =
      min ({ capacity := 5, dbegin := 1, len := 3,
             dataPtr := some [10, 11, 12, 13, 14] } : IocpDataBuffer).len 2 ∧
    (IocpDataBufferMove
      { capacity := 5, dbegin := 1, len := 3,
        dataPtr := some [10, 11, 12, 13, 14] } 2).copied = [11, 12] ∧
    (IocpDataBufferMove
      { capacity := 5, dbegin := 1, len := 3,
        dataPtr := some [10, 11, 12, 13, 14] } 2).buf.dbegin = 3 ∧
    (IocpDataBufferMove
      { capacity := 5, dbegin := 1, len := 3,
        dataPtr := some [10, 11, 12, 13, 14] } 2).buf.len = 1 :=
  ⟨by decide, by decide,
   (c4_data_buffer_move
     { capacity := 5, dbegin := 1, len := 3, dataPtr := some [10, 11, 12, 13, 14] }
     2 (by decide) (by decide)).1,
   by decide, by decide, by decide⟩

/-- C5: a buffer established by `IocpDataBufferInit` is well-formed
(`begin + length ≤ capacity`, `capacity = 0 → storage absent`); across any
sequence of non-negative `IocpDataBufferMove` requests from a well-formed
buffer, every intermediate buffer stays well-formed, the length is
monotonically non-increasing and never negative, and the sum of the
returned byte counts never exceeds the length held at the start. -/
theorem c5_buffer_invariants (capacity : Int) (allocOk : Bool)
    (b : IocpDataBuffer) (reqs : List Int) (hcap : 0 ≤ capacity)
    (hwf : b.WF) (hreqs : ∀ r ∈ reqs, 0 ≤ r) :
    (IocpDataBufferInit capacity allocOk).WF ∧
    (∀ p s, reqs = p ++ s →
      (IocpDataBufferMoves b p).WF ∧
      (IocpDataBufferMoves b p).len ≤ b.len ∧
      0 ≤ (IocpDataBufferMoves b p).len ∧
      (IocpDataBufferMoves b reqs).len ≤ (IocpDataBufferMoves b p).len) ∧
    IocpDataBufferMovesSum b reqs ≤ b.len := by
  have hall := IocpDataBufferMoves_props reqs b hwf hreqs
  have hfinal_nonneg : 0 ≤ (IocpDataBufferMoves b reqs).len := hall.1.2.1
  refine ⟨IocpDataBufferInit_wf capacity allocOk hcap, ?_, by omega⟩
  intro p s hsplit
  have hp : ∀ r ∈ p, 0 ≤ r := fun r hr =>
    hreqs r (hsplit ▸ List.mem_append_left s hr)
  have hs : ∀ r ∈ s, 0 ≤ r := fun r hr =>
    hreqs r (hsplit ▸ List.mem_append_right p hr)
  have hpp := IocpDataBufferMoves_props p b hwf hp
  have hrest := IocpDataBufferMoves_props s (IocpDataBufferMoves b p) hpp.1 hs
  have heq : IocpDataBufferMoves b reqs =
      IocpDataBufferMoves (IocpDataBufferMoves b p) s := by
    rw [hsplit, IocpDataBufferMoves_append]
  exact ⟨hpp.1, hpp.2.1, hpp.1.2.1, by rw [heq]; exact hrest.2.1⟩

/-- Witness for C5: capacity 4 with successful allocation, the buffer
`{capacity 5, begin 0, length 4, storage [9,9,9,9,1]}`, requests `[1, 2]`. -/
theorem c5_buffer_invariants_witness :
    (0 : Int) ≤ 4 ∧
    ({ capacity := 5, dbegin := 0, len := 4,
       dataPtr := some [9, 9, 9, 9, 1] } : IocpDataBuffer).WF ∧
    IocpDataBufferMovesSum
      { capacity := 5, dbegin := 0, len := 4, dataPtr := some [9, 9, 9, 9, 1] }
      [1, 2] ≤
      ({ capacity := 5, dbegin := 0, len := 4,
         dataPtr := some [9, 9, 9, 9, 1] } : IocpDataBuffer).len :=
  ⟨by decide, by decide,
   (c5_buffer_invariants 4 true
     { capacity := 5, dbegin := 0, len := 4, dataPtr := some [9, 9, 9, 9, 1] }
     [1, 2] (by decide) (by decide) (by decide)).2.2⟩

/-- C6: on a locked channel, `IocpChannelWakeAfterCompletion` with the
blocked-for-I/O flag set clears exactly that flag and signals the condition
variable in the same step; with the flag clear it leaves the channel
untouched and does not signal. -/
theorem c6_wake_after_completion (c : IocpChannel) :
    (c.flags &&& IOCP_CHAN_F_BLOCKED ≠ 0 →
      (IocpChannelWakeAfterCompletion c).signaled = true ∧
      (IocpChannelWakeAfterCompletion c).chan =
        { c with flags := c.flags - IOCP_CHAN_F_BLOCKED } ∧
      (IocpChannelWakeAfterCompletion c).chan.flags &&& IOCP_CHAN_F_BLOCKED = 0 ∧
      (IocpChannelWakeAfterCompletion c).chan.flags + IOCP_CHAN_F_BLOCKED = c.flags) ∧
    (c.flags &&& IOCP_CHAN_F_BLOCKED = 0 →
      (IocpChannelWakeAfterCompletion c).chan = c ∧
      (IocpChannelWakeAfterCompletion c).signaled = false) := by
  have hmod : c.flags &&& IOCP_CHAN_F_BLOCKED = c.flags % 2 := Nat.and_one_is_mod _
  constructor
  · intro h
    have hone : c.flags &&& IOCP_CHAN_F_BLOCKED = 1 := by omega
    unfold IocpChannelWakeAfterCompletion
    rw [if_pos h]
    refine ⟨rfl, by rw [hone]; rfl, ?_, ?_⟩
    · show (c.flags - (c.flags &&& IOCP_CHAN_F_BLOCKED)) &&& IOCP_CHAN_F_BLOCKED = 0
      rw [hone]
      show (c.flags - 1) &&& 1 = 0
      rw [Nat.and_one_is_mod]
      omega
    · show c.flags - (c.flags &&& IOCP_CHAN_F_BLOCKED) + IOCP_CHAN_F_BLOCKED = c.flags
      rw [hone]
      show c.flags - 1 + 1 = c.flags
      omega
  · intro h
    unfold IocpChannelWakeAfterCompletion
    rw [if_neg (by simp [h])]
    exact ⟨rfl, rfl⟩

/-- Witness for C6 on two concrete channels, one with the flag set
(`flags = 5`) and one with it clear (`flags = 4`). -/
theorem c6_wake_after_completion_witness :
    ({ numRefs := 1, flags := 5, tsdPtr := none, readyLinkNext := none,
       readyLinkPrev := none, inputBuffers := [], locked := true,
       hasInitialize := false, hasFinalize := false } : IocpChannel).flags &&&
      IOCP_CHAN_F_BLOCKED ≠ 0 ∧
    (IocpChannelWakeAfterCompletion
      { numRefs := 1, flags := 5, tsdPtr := none, readyLinkNext := none,
        readyLinkPrev := none, inputBuffers := [], locked := true,
        hasInitialize := false, hasFinalize := false }).signaled = true ∧
    (IocpChannelWakeAfterCompletion
      { numRefs := 1, flags := 5, tsdPtr := none, readyLinkNext := none,
        readyLinkPrev := none, inputBuffers := [], locked := true,
        hasInitialize := false, hasFinalize := false }).chan.flags +
      IOCP_CHAN_F_BLOCKED = 5 ∧
    ({ numRefs := 1, flags := 4, tsdPtr := none, readyLinkNext := none,
       readyLinkPrev := none, inputBuffers := [], locked := true,
       hasInitialize := false, hasFinalize := false } : IocpChannel).flags &&&
      IOCP_CHAN_F_BLOCKED = 0 ∧
    (IocpChannelWakeAfterCompletion
      { numRefs := 1, flags := 4, tsdPtr := none, readyLinkNext := none,
        readyLinkPrev := none, inputBuffers := [], locked := true,
        hasInitialize := false, hasFinalize := false }).signaled = false :=
  ⟨by decide,
   ((c6_wake_after_completion
     { numRefs := 1, flags := 5, tsdPtr := none, readyLinkNext := none,
       readyLinkPrev := none, inputBuffers := [], locked := true,
       hasInitialize := false, hasFinalize := false }).1 (by decide)).1,
   ((c6_wake_after_completion
     { numRefs := 1, flags := 5, tsdPtr := none, readyLinkNext := none,
       readyLinkPrev := none, inputBuffers := [], locked := true,
       hasInitialize := false, hasFinalize := false }).1 (by decide)).2.2.2,
   by decide,
   ((c6_wake_after_completion
     { numRefs := 1, flags := 4, tsdPtr := none, readyLinkNext := none,
       readyLinkPrev := none, inputBuffers := [], locked := true,
       hasInitialize := false, hasFinalize := false }).2 (by decide)).2⟩

/-- C7: `IocpTsdDrop` decrements the refcount; it frees only when the
decremented count is ≤ 0; if at that point the ready-channel queue is
non-empty it panics instead of freeing; when the count stays positive the
TSD is merely unlocked with queue and thread identity unchanged. -/
theorem c7_tsd_drop (t : IocpTsd) :
    (0 < t.numRefs - 1 →
      IocpTsdDrop t = TsdDropResult.unlocked
        { numRefs := t.numRefs - 1, threadId := t.threadId,
          readyChannels := t.readyChannels, locked := false }) ∧
    (t.numRefs - 1 ≤ 0 → t.readyChannels = [] →
      IocpTsdDrop t = TsdDropResult.freed) ∧
    (t.numRefs - 1 ≤ 0 → t.readyChannels ≠ [] →
      IocpTsdDrop t = TsdDropResult.panicked) := by
  refine ⟨fun h => ?_, fun h hq => ?_, fun h hq => ?_⟩
  · have hpos : ¬(t.numRefs - 1 ≤ 0) := by omega
    simp [IocpTsdDrop, hpos]
  · simp [IocpTsdDrop, h, hq]
  · simp [IocpTsdDrop, h, List.isEmpty_iff, hq]

/-- Witness for C7 on three concrete TSDs: refcount 2 (stays alive),
refcount 1 with an empty queue (freed), refcount 1 with a non-empty queue
(panic). -/
theorem c7_tsd_drop_witness :
    (0 : Int) < 2 - 1 ∧
    IocpTsdDrop { numRefs := 2, threadId := 9, readyChannels := [], locked := true } =
      TsdDropResult.unlocked
        { numRefs := 1, threadId := 9, readyChannels := [], locked := false } ∧
    IocpTsdDrop { numRefs := 1, threadId := 9, readyChannels := [], locked := true } =
      TsdDropResult.freed ∧
    IocpTsdDrop { numRefs := 1, threadId := 9, readyChannels := [4], locked := true } =
      TsdDropResult.panicked :=
  ⟨by decide,
   (c7_tsd_drop { numRefs := 2, threadId := 9, readyChannels := [], locked := true }).1
     (by decide),
   (c7_tsd_drop { numRefs := 1, threadId := 9, readyChannels := [], locked := true }).2.1
     (by decide) (by decide),
   (c7_tsd_drop { numRefs := 1, threadId := 9, readyChannels := [4], locked := true }).2.2
     (by decide) (by decide)⟩

/-- C8: the claim says the first `IocpThreadInit` call of a thread creates a
TSD, stores it in the thread slot and registers the event-loop hooks and the
exit handler.  The code tests `tsdPtrPtr == NULL` — the address returned by
`IOCP_TSD_INIT`, which is never null — instead of the slot's contents, so
even on a first call with an empty slot it creates nothing, registers
nothing and returns `TCL_OK`. -/
theorem c8_thread_init_creates_nothing (currentThread : Int) (ts : ThreadState) :
    IocpThreadInit currentThread ts = (ts, TCL_OK) ∧
    IocpThreadInit 42
        { slot := none, eventSourceRegistered := false,
          exitHandlerRegistered := false } =
      ({ slot := none, eventSourceRegistered := false,
         exitHandlerRegistered := false }, TCL_OK) :=
  ⟨IocpThreadInit_eq currentThread ts,
   IocpThreadInit_eq 42
     { slot := none, eventSourceRegistered := false, exitHandlerRegistered := false }⟩

/-- C9: whenever `IocpProcessInit` (run from the zero-initialized module
state, as the one-time gate guarantees) returns `TCL_ERROR`, the completion
port field is back to `NULL`, Winsock is not left started, no dispatcher
thread is recorded, and a non-empty error message was left in the
interpreter. -/
theorem c9_process_init_error_atomicity (env : ProcessInitEnv)
    (interp : InterpState)
    (h : (IocpProcessInit env iocpModuleState0 interp).2.2 = TCL_ERROR) :
    (IocpProcessInit env iocpModuleState0 interp).1.completion_port = none ∧
    (IocpProcessInit env iocpModuleState0 interp).1.wsaStarted = false ∧
    (IocpProcessInit env iocpModuleState0 interp).1.completion_thread = none ∧
    (IocpProcessInit env iocpModuleState0 interp).2.1.result ≠ "" := by
  obtain ⟨cp, ws, ct⟩ := env
  cases cp <;> cases ws <;> cases ct <;>
    simp_all [IocpProcessInit, iocpModuleState0, Iocp_ReportLastError,
      Tcl_SetResult, lastErrorMessage, winsockErrorMessage, TCL_OK, TCL_ERROR]

/-- Witness for C9 with `CreateIoCompletionPort` failing and an initially
empty interpreter result. -/
theorem c9_process_init_error_atomicity_witness :
    (IocpProcessInit
      { createPortOk := false, wsaStartupOk := true, createThreadOk := true }
      iocpModuleState0 { result := "" }).2.2 = TCL_ERROR ∧
    (IocpProcessInit
      { createPortOk := false, wsaStartupOk := true, createThreadOk := true }
      iocpModuleState0 { result := "" }).1.completion_port = none ∧
    (IocpProcessInit
      { createPortOk := false, wsaStartupOk := true, createThreadOk := true }
      iocpModuleState0 { result := "" }).1.wsaStarted = false ∧
    (IocpProcessInit
      { createPortOk := false, wsaStartupOk := true, createThreadOk := true }
      iocpModuleState0 { result := "" }).1.completion_thread = none ∧
    (IocpProcessInit
      { createPortOk := false, wsaStartupOk := true, createThreadOk := true }
      iocpModuleState0 { result := "" }).2.1.result ≠ "" :=
  ⟨by decide,
   (c9_process_init_error_atomicity
     { createPortOk := false, wsaStartupOk := true, createThreadOk := true }
     { result := "" } (by decide)).1,
   (c9_process_init_error_atomicity
     { createPortOk := false, wsaStartupOk := true, createThreadOk := true }
     { result := "" } (by decide)).2.1,
   (c9_process_init_error_atomicity
     { createPortOk := false, wsaStartupOk := true, createThreadOk := true }
     { result := "" } (by decide)).2.2.1,
   (c9_process_init_error_atomicity
     { createPortOk := false, wsaStartupOk := true, createThreadOk := true }
     { result := "" } (by decide)).2.2.2⟩

/-- C10: `Iocp_Init` never returns `TCL_OK`: since `IocpThreadInit` always
returns `TCL_OK` (= 0), the negated test `! IocpThreadInit(interp)` is
always true, so `Iocp_Init` returns `TCL_ERROR` for every input, never
registers `iocp::socket` and never provides the package; on the path where
the one-time process initialization succeeds and the interpreter result is
empty, it sets the "Unable to do thread initialization" message. -/
theorem c10_iocp_init_never_ok (useTclStubs stubsOk : Bool)
    (gate eventual : Iocp_DoOnceState) (env : ProcessInitEnv)
    (currentThread : Int) (ts : ThreadState) (interp : InterpState) :
    (Iocp_Init useTclStubs stubsOk gate eventual env currentThread ts
      interp).code = TCL_ERROR ∧
    (Iocp_Init useTclStubs stubsOk gate eventual env currentThread ts
      interp).socketCommandRegistered = false ∧
    (Iocp_Init useTclStubs stubsOk gate eventual env currentThread ts
      interp).pkgProvided = false ∧
    (Iocp_Init false false IOCP_INITSTATE_INIT IOCP_INITSTATE_INIT
      { createPortOk := true, wsaStartupOk := true, createThreadOk := true } 1
      { slot := none, eventSourceRegistered := false,
        exitHandlerRegistered := false }
      { result := "" }).interp.result = threadInitErrorMessage := by
  refine ⟨?_, ?_, ?_, by decide⟩ <;>
    · simp only [Iocp_Init, IocpThreadInit_eq, TCL_OK, TCL_ERROR]
      split_ifs <;> simp_all

